import Mathlib

/-!
Verification development for the `bls-azure-ai-foundry-agent` repository.

We shallowly embed the configuration-resolution layer
(`src/foundry_agents/configs/settings.py`, `src/foundry_agents/configs/tools_registry.py`,
`src/foundry_agents/utils/akv.py`, `src/foundry_agents/prompts/agent_prompts.py`)
and the two queue-handler variants (`function_app.py` at the repository root and
`src/function_app.py`) as pure Lean functions, with Python dictionaries modelled as
insertion-ordered association lists and the process-global caches modelled as explicit
state threaded through the functions.
-/

namespace FoundryAgents

/-! ## Association lists modelling Python dicts (insertion-ordered) -/

/-- `d.get(k)` / `d[k]` lookup: first (and in a real dict, only) binding of `k`. -/
def lookupA {β : Type} (k : String) : List (String × β) → Option β
  | [] => none
  | (k', v) :: rest => if k' = k then some v else lookupA k rest

/-- `d[k] = v` assignment: overwrite in place if the key exists, else append at the
end (Python dicts preserve insertion order). -/
def setA {β : Type} (k : String) (v : β) : List (String × β) → List (String × β)
  | [] => [(k, v)]
  | (k', v') :: rest => if k' = k then (k, v) :: rest else (k', v') :: setA k v rest

/-- Removal of every binding of `k` (used only to state "field absent" properties). -/
def eraseA {β : Type} (k : String) : List (String × β) → List (String × β)
  | [] => []
  | (k', v) :: rest => if k' = k then eraseA k rest else (k', v) :: eraseA k rest

/-! ## JSON values (shapes that appear in queue messages and tool fragments) -/

inductive Json where
  | null : Json
  | bool : Bool → Json
  | num : Int → Json
  | str : String → Json
  | arr : List Json → Json
  | obj : List (String × Json) → Json

/-- Python truthiness of a JSON value (`None`, `False`, `0`, `""`, `[]`, `{}` are falsy). -/
def jtruthy : Json → Bool
  | .null => false
  | .bool b => b
  | .num n => n != 0
  | .str s => s != ""
  | .arr l => !l.isEmpty
  | .obj l => !l.isEmpty

/-- `config.get(key)` on a parsed JSON object. -/
def jlookup (config : List (String × Json)) (k : String) : Option Json :=
  lookupA k config

/-! ## constants.py -/

def KV_FOUNDRY_PROJECT_ENDPOINT : String := "foundry-project-endpoint"
def KV_AI_SEARCH_CONNECTION_ID : String := "ai-search-connection-id"
def KV_AI_SEARCH_INDEX_NAME : String := "ai-search-index-name"
def KV_MCP_CONNECTION_ID : String := "mcp-connection-id"
def AGENT_QUEUE_NAME : String := "agent-jobs"
def DEFAULT_AGENT_MODEL : String := "gpt-4.1"
def DEFAULT_AGENT_NAME : String := "default-agent"

/-! ## akv.py — Key Vault secret fetches with a process-global value cache

The remote vault is modelled as a function `store : String → Except String (Option String)`:
`.error e` is an exception raised by the SDK client (e.g. `ResourceNotFoundError` for an
absent secret, or a connectivity failure), `.ok v` is the returned secret whose `.value`
attribute is `Option String` (the code applies `or ""`). Process state records the
`_secret_cache` dict and, for counting remote round-trips, the log of store invocations. -/

structure AkvState where
  secret_cache : List (String × String)
  fetches : List String

/-- `akv.get_secret(name, use_cache=...)`. On a cache hit (with `use_cache`) the cached
value is returned and no store call happens; otherwise the store is invoked, an error
propagates unchanged, and a returned value (`.value or ""`) is written into the cache. -/
def get_secret (store : String → Except String (Option String)) (name : String)
    (use_cache : Bool) (st : AkvState) : Except String (String × AkvState) :=
  if use_cache && (lookupA name st.secret_cache).isSome then
    .ok ((lookupA name st.secret_cache).getD "", st)
  else
    match store name with
    | .error e => .error e
    | .ok v =>
        let value := v.getD ""
        .ok (value, { secret_cache := setA name value st.secret_cache,
                      fetches := st.fetches ++ [name] })

/-- `akv.clear_cache()` — clears the in-process secret value cache. -/
def clear_cache (st : AkvState) : AkvState :=
  { st with secret_cache := [] }

/-! ## settings.py -/

structure Settings where
  foundry_project_endpoint : String
  ai_search_connection_id : String
  ai_search_index_name : String
  mcp_connection_id : String
  azure_client_id : String
  key_vault_uri : String
  storage_queue_name : String

/-- The four Key Vault secret names resolved when a `Settings` snapshot is built,
in dataclass field order. -/
def SETTINGS_SECRET_NAMES : List String :=
  [KV_FOUNDRY_PROJECT_ENDPOINT, KV_AI_SEARCH_CONNECTION_ID,
   KV_AI_SEARCH_INDEX_NAME, KV_MCP_CONNECTION_ID]

/-- `Settings()` construction: each secret field's `default_factory` calls
`get_secret` (with the default `use_cache=True`), in dataclass field order; the two
identity fields read environment variables with default `""`; the queue name is a
plain constant. A failing fetch propagates out of the constructor. -/
def mkSettings (env : String → Option String)
    (store : String → Except String (Option String)) (st : AkvState) :
    Except String (Settings × AkvState) :=
  match get_secret store KV_FOUNDRY_PROJECT_ENDPOINT true st with
  | .error e => .error e
  | .ok (fpe, st) =>
    match get_secret store KV_AI_SEARCH_CONNECTION_ID true st with
    | .error e => .error e
    | .ok (ascid, st) =>
      match get_secret store KV_AI_SEARCH_INDEX_NAME true st with
      | .error e => .error e
      | .ok (asidx, st) =>
        match get_secret store KV_MCP_CONNECTION_ID true st with
        | .error e => .error e
        | .ok (mcp, st) =>
          .ok ({ foundry_project_endpoint := fpe,
                 ai_search_connection_id := ascid,
                 ai_search_index_name := asidx,
                 mcp_connection_id := mcp,
                 azure_client_id := (env "AZURE_CLIENT_ID").getD "",
                 key_vault_uri := (env "KEY_VAULT_URI").getD "",
                 storage_queue_name := AGENT_QUEUE_NAME }, st)

/-- Per-process state visible to `get_settings`: the `@lru_cache(maxsize=1)` slot of
`get_settings` plus the akv state. `lru_cache` stores a result only on success. -/
structure ProcState where
  akv : AkvState
  settings_cache : Option Settings

/-- `get_settings()`: return the cached instance if the `lru_cache` slot is filled,
otherwise construct `Settings()` and cache the very instance returned. -/
def get_settings (env : String → Option String)
    (store : String → Except String (Option String)) (ps : ProcState) :
    Except String (Settings × ProcState) :=
  match ps.settings_cache with
  | some s => .ok (s, ps)
  | none =>
    match mkSettings env store ps.akv with
    | .error e => .error e
    | .ok (s, akv') => .ok (s, { akv := akv', settings_cache := some s })

/-! ## tools_registry.py -/

/-- A `tool_resources` fragment / the merged `tool_resources` dict: a top-level dict
from resource-type key to a second-level dict whose values are sequences (the code's
merge assumes this). Generic in the element type `α` (in the real registry the
elements are JSON objects; the spec's synthetic example uses numbers). -/
def Resources (α : Type) : Type := List (String × List (String × List α))

/-- Resolved tool ready to be passed to the Agents SDK (`ToolEntry` dataclass). -/
structure ToolEntry where
  tool_def : Json
  tool_resources : Resources Json

/-- The single index-binding object produced by `_build_ai_search`. -/
def aiSearchIndex (settings : Settings) : Json :=
  .obj [("index_connection_id", .str settings.ai_search_connection_id),
        ("index_name", .str settings.ai_search_index_name)]

def _build_ai_search (settings : Settings) : ToolEntry :=
  { tool_def := .obj [("type", .str "azure_ai_search")],
    tool_resources :=
      [("azure_ai_search", [("indexes", [aiSearchIndex settings])])] }

def _build_microsoft_learn_mcp (settings : Settings) : ToolEntry :=
  { tool_def := .obj [("type", .str "remote_mcp"),
                      ("remote_mcp", .obj [("connection_id", .str settings.mcp_connection_id)])],
    tool_resources := [] }

def _build_code_interpreter (_settings : Settings) : ToolEntry :=
  { tool_def := .obj [("type", .str "code_interpreter")],
    tool_resources := [] }

/-- Map of short name → builder function (insertion order as in the source). -/
def TOOL_REGISTRY : List (String × (Settings → ToolEntry)) :=
  [("ai_search", _build_ai_search),
   ("microsoft_learn_mcp", _build_microsoft_learn_mcp),
   ("code_interpreter", _build_code_interpreter)]

/-- The inner merge loop body for one colliding top-level key: for each
`(sub_key, sub_val)` of the incoming fragment,
`tool_resources[key][sub_key] = tool_resources[key].get(sub_key, []) + sub_val`. -/
def mergeInner {α : Type} (inner : List (String × List α)) (value : List (String × List α)) :
    List (String × List α) :=
  value.foldl (fun inn sv => setA sv.1 (((lookupA sv.1 inn).getD []) ++ sv.2) inn) inner

/-- Merging one `(key, value)` pair of an entry's `tool_resources` into the accumulator:
on a key collision the second-level sequences are concatenated, otherwise the pair is
inserted (`tool_resources[key] = value`). -/
def mergeKey {α : Type} (acc : Resources α) (key : String) (value : List (String × List α)) :
    Resources α :=
  match lookupA key acc with
  | some inner => setA key (mergeInner inner value) acc
  | none => setA key value acc

/-- The `for key, value in entry.tool_resources.items()` merge loop. -/
def mergeResources {α : Type} (acc : Resources α) (res : Resources α) : Resources α :=
  res.foldl (fun a kv => mergeKey a kv.1 kv.2) acc

/-- The `for name in tool_names` loop of `resolve_tools`, with the two accumulators
(`tools` list and merged `tool_resources`) explicit: an unknown name is logged and
skipped, a known name's builder output is appended / merged. -/
def resolveLoop (settings : Settings) (names : List String)
    (tools : List Json) (tool_resources : Resources Json) : List Json × Resources Json :=
  match names with
  | [] => (tools, tool_resources)
  | name :: rest =>
    match lookupA name TOOL_REGISTRY with
    | none => resolveLoop settings rest tools tool_resources
    | some builder =>
      let entry := builder settings
      resolveLoop settings rest (tools ++ [entry.tool_def])
        (mergeResources tool_resources entry.tool_resources)

/-- `resolve_tools(tool_names)`. The source obtains the (cached) `Settings` via
`get_settings()`; the snapshot is passed explicitly here. -/
def resolve_tools (settings : Settings) (tool_names : List String) :
    List Json × Resources Json :=
  resolveLoop settings tool_names [] []

/-- `list_available_tools()` — the registry's keys in registration order. -/
def list_available_tools : List String :=
  TOOL_REGISTRY.map Prod.fst

/-! ## agent_prompts.py -/

def AGENT_PROMPTS : List (String × String) :=
  [("doc-bot",
    "You are a documentation assistant. Use the connected AI Search index to find relevant documentation, then provide clear, concise answers with source references. If the answer is not in the index, say so honestly."),
   ("code-helper",
    "You are a coding assistant specialised in Azure services. Answer questions about Azure SDKs, Bicep, ARM templates, and cloud architecture. Provide code samples when helpful."),
   ("default",
    "You are a helpful AI assistant powered by Azure AI Foundry.")]

/-- `get_prompt(agent_name)`: the prompt for the name, falling back to the
`"default"` entry when absent. -/
def get_prompt (agent_name : String) : String :=
  (lookupA agent_name AGENT_PROMPTS).getD ((lookupA "default" AGENT_PROMPTS).getD "")

/-- `get_prompt` as called with the raw JSON `agent_name` value: `dict.get` with a
non-string key never matches the string-keyed prompt table, hence the default. -/
def get_prompt_json : Json → String
  | .str s => get_prompt s
  | _ => (lookupA "default" AGENT_PROMPTS).getD ""

/-! ## The two queue-handler variants

`src/function_app.py :: agent_creation_processor` and
`src/src/function_app.py :: create_agent`. The body decode + `json.loads` step is
external (Python's json library); a handler therefore takes the decode result:
`.ok config` for a message parsing to a JSON object, `.error e` for a decode failure.
The outcome records whether the handler raised, returned without a create-agent call,
or issued a create-agent call (and with which arguments). -/

structure CreateAgentCall where
  model : Json
  name : Json
  instructions : Json
  tools : List Json
  tool_resources : Resources Json

inductive HandlerResult where
  | created : CreateAgentCall → HandlerResult
  | dropped : HandlerResult
  | raised : String → HandlerResult

/-- The create-agent call issued by a handler outcome, if any. -/
def createdCall : HandlerResult → Option CreateAgentCall
  | .created c => some c
  | _ => none

/-- `instructions = config.get("instructions") or get_prompt(agent_name)` — the line
shared verbatim by both handler variants: an absent or falsy explicit value falls
back to the prompt registry keyed by the agent name. -/
def selectInstructions (config : List (String × Json)) (agent_name : Json) : Json :=
  match jlookup config "instructions" with
  | some v => if jtruthy v then v else .str (get_prompt_json agent_name)
  | none => .str (get_prompt_json agent_name)

/-- A `tools` entry as a registry key: non-string entries are not keys of the
string-keyed registry, so they are looked up without a match and skipped; they are
modelled as the likewise-unregistered name `""`. -/
def toolNameOf : Json → String
  | .str s => s
  | _ => ""

/-- `tool_names = config.get("tools", [])` for the documented message format
(a JSON array of identifiers). -/
def toolNamesOf : Json → List String
  | .arr l => l.map toolNameOf
  | _ => []

/-- `src/src/function_app.py :: create_agent`: a decode failure is logged and the
handler returns (message dropped); otherwise defaults are applied
(`agent_name`/`model`), instructions selected, tools resolved, and the create-agent
call issued. This variant reads only `agent_name`, never the legacy `agentName`. -/
def create_agent (settings : Settings)
    (parsed : Except String (List (String × Json))) : HandlerResult :=
  match parsed with
  | .error _ => .dropped
  | .ok config =>
    let agent_name := (jlookup config "agent_name").getD (.str DEFAULT_AGENT_NAME)
    let model := (jlookup config "model").getD (.str DEFAULT_AGENT_MODEL)
    let instructions := selectInstructions config agent_name
    let tool_names := toolNamesOf ((jlookup config "tools").getD (.arr []))
    let res := resolve_tools settings tool_names
    .created { model := model, name := agent_name, instructions := instructions,
               tools := res.1, tool_resources := res.2 }

/-- `function_app.py :: agent_creation_processor`: a decode failure is logged and
re-raised; the agent name is
`config.get("agent_name") or config.get("agentName", "default-agent")`
(legacy fallback, with Python truthiness on the first lookup); the rest matches
`create_agent`. -/
def agent_creation_processor (settings : Settings)
    (parsed : Except String (List (String × Json))) : HandlerResult :=
  match parsed with
  | .error e => .raised e
  | .ok config =>
    let legacy := (jlookup config "agentName").getD (.str DEFAULT_AGENT_NAME)
    let agent_name :=
      match jlookup config "agent_name" with
      | some v => if jtruthy v then v else legacy
      | none => legacy
    let model := (jlookup config "model").getD (.str DEFAULT_AGENT_MODEL)
    let instructions := selectInstructions config agent_name
    let tool_names := toolNamesOf ((jlookup config "tools").getD (.arr []))
    let res := resolve_tools settings tool_names
    .created { model := model, name := agent_name, instructions := instructions,
               tools := res.1, tool_resources := res.2 }

/-- A concrete `Settings` snapshot used by closed witnesses and counterexamples. -/
def testSettings : Settings :=
  { foundry_project_endpoint := "https://example.invalid",
    ai_search_connection_id := "conn-1",
    ai_search_index_name := "idx-1",
    mcp_connection_id := "mcp-1",
    azure_client_id := "",
    key_vault_uri := "",
    storage_queue_name := AGENT_QUEUE_NAME }

/-! ## Helper lemmas -/

lemma lookupA_setA_self {β : Type} (k : String) (v : β) :
    ∀ l : List (String × β), lookupA k (setA k v l) = some v
  | [] => by simp [setA, lookupA]
  | (k', v') :: rest => by
    by_cases h : k' = k
    · simp [setA, lookupA, h]
    · simp [setA, lookupA, h, lookupA_setA_self k v rest]

lemma lookupA_eraseA_self {β : Type} (k : String) :
    ∀ l : List (String × β), lookupA k (eraseA k l) = none
  | [] => rfl
  | (k', v') :: rest => by
    by_cases h : k' = k
    · simp [eraseA, h, lookupA_eraseA_self k rest]
    · simp [eraseA, lookupA, h, lookupA_eraseA_self k rest]

lemma lookupA_eraseA_ne {β : Type} {k k' : String} (h : k ≠ k') :
    ∀ l : List (String × β), lookupA k (eraseA k' l) = lookupA k l
  | [] => rfl
  | (k'', v) :: rest => by
    by_cases h2 : k'' = k'
    · simp [eraseA, lookupA, h2, Ne.symm h, lookupA_eraseA_ne h rest]
    · by_cases h3 : k'' = k
      · simp [eraseA, lookupA, h2, h3, h]
      · simp [eraseA, lookupA, h2, h3, lookupA_eraseA_ne h rest]

/-- The `tools` output of the resolution loop: the accumulator followed by the
tool definitions of the known names, in input order. -/
lemma resolveLoop_fst (s : Settings) :
    ∀ (names : List String) (tools : List Json) (res : Resources Json),
    (resolveLoop s names tools res).1 =
      tools ++ names.filterMap (fun n => (lookupA n TOOL_REGISTRY).map (fun b => (b s).tool_def))
  | [], tools, res => by simp [resolveLoop]
  | n :: ns, tools, res => by
    match hl : lookupA n TOOL_REGISTRY with
    | none => simp [resolveLoop, hl, resolveLoop_fst s ns tools res]
    | some b =>
      simp [resolveLoop, hl,
        resolveLoop_fst s ns (tools ++ [(b s).tool_def])
          (mergeResources res (b s).tool_resources)]

/-- Unknown names do not affect the resolution loop at all. -/
lemma resolveLoop_filter (s : Settings) :
    ∀ (names : List String) (tools : List Json) (res : Resources Json),
    resolveLoop s names tools res =
      resolveLoop s (names.filter fun n => (lookupA n TOOL_REGISTRY).isSome) tools res
  | [], _, _ => rfl
  | n :: ns, tools, res => by
    match hl : lookupA n TOOL_REGISTRY with
    | none =>
      simp [resolveLoop, hl, List.filter_cons]
      exact resolveLoop_filter s ns tools res
    | some b =>
      simp [List.filter_cons, hl, resolveLoop]
      exact resolveLoop_filter s ns (tools ++ [(b s).tool_def])
        (mergeResources res (b s).tool_resources)

/-- The tool definition a known name resolves to (`.null` is never reached for
registered names). -/
def toolDefFor (s : Settings) (n : String) : Json :=
  match lookupA n TOOL_REGISTRY with
  | some b => (b s).tool_def
  | none => .null

lemma filterMap_toolDef_of_known (s : Settings) :
    ∀ names : List String, (∀ n ∈ names, (lookupA n TOOL_REGISTRY).isSome = true) →
    names.filterMap (fun n => (lookupA n TOOL_REGISTRY).map (fun b => (b s).tool_def)) =
      names.map (toolDefFor s)
  | [], _ => rfl
  | n :: ns, h => by
    have h1 := h n (List.mem_cons_self n ns)
    match hl : lookupA n TOOL_REGISTRY with
    | none => rw [hl] at h1; simp at h1
    | some b =>
      simp [List.filterMap_cons, hl, toolDefFor,
        filterMap_toolDef_of_known s ns (fun m hm => h m (List.mem_cons_of_mem _ hm))]

/-! ## Claim theorems -/

/-- C1: when two resolved entries declare the same top-level `tool_resources` key,
`resolve_tools`'s merge concatenates their second-level sequence values in input order
(later entries appended after earlier ones) without dropping elements; top-level keys
declared by only one entry are inserted as-is; the spec's synthetic example
`{"x": {"items": [1]}}` merged with `{"x": {"items": [2]}}` yields
`{"x": {"items": [1, 2]}}`; and in the program itself, resolving `ai_search` twice
concatenates the two index bindings in input order. -/
theorem C1_merge_policy :
    (∀ (α : Type) (k sk : String) (xs ys : List α),
        mergeResources [(k, [(sk, xs)])] [(k, [(sk, ys)])] = [(k, [(sk, xs ++ ys)])])
  ∧ (∀ (α : Type) (k k' : String) (v v' : List (String × List α)), k' ≠ k →
        mergeResources [(k, v)] [(k', v')] = [(k, v), (k', v')])
  ∧ mergeResources [("x", [("items", [(1 : Int)])])] [("x", [("items", [2])])] =
      [("x", [("items", [1, 2])])]
  ∧ (∀ s : Settings, (resolve_tools s ["ai_search", "ai_search"]).2 =
      [("azure_ai_search", [("indexes", [aiSearchIndex s, aiSearchIndex s])])]) := by
  refine ⟨?_, ?_, rfl, fun s => rfl⟩
  · intro α k sk xs ys
    simp [mergeResources, mergeKey, mergeInner, lookupA, setA]
  · intro α k k' v v' h
    simp [mergeResources, mergeKey, lookupA, setA, Ne.symm h, h]

/-- Witness for C1 at concrete inputs (discharging the `k' ≠ k` hypothesis). -/
theorem C1_merge_policy_witness :
    ("y" : String) ≠ "x" ∧
    mergeResources [("x", [("items", [(1 : Int)])])] [("y", [("things", [3])])] =
      [("x", [("items", [1])]), ("y", [("things", [3])])] :=
  ⟨by decide, C1_merge_policy.2.1 Int "x" "y" [("items", [1])] [("things", [3])] (by decide)⟩

/-- C2: for an input of only registered names, the `tool_definitions` output of
`resolve_tools` has the same length as the input and lists each name's tool
definition in exactly input order (duplicates included). -/
theorem C2_order_preserved (s : Settings) (names : List String)
    (h : ∀ n ∈ names, (lookupA n TOOL_REGISTRY).isSome = true) :
    (resolve_tools s names).1.length = names.length ∧
    (resolve_tools s names).1 = names.map (toolDefFor s) := by
  have hfst := resolveLoop_fst s names [] []
  have hmap := filterMap_toolDef_of_known s names h
  constructor
  · simp [resolve_tools, hfst, hmap]
  · simp [resolve_tools, hfst, hmap]

/-- Witness for C2: a concrete all-known input with a duplicated name. -/
theorem C2_order_preserved_witness :
    (∀ n ∈ ["ai_search", "code_interpreter", "ai_search"],
       (lookupA n TOOL_REGISTRY).isSome = true) ∧
    (resolve_tools testSettings ["ai_search", "code_interpreter", "ai_search"]).1.length = 3 ∧
    (resolve_tools testSettings ["ai_search", "code_interpreter", "ai_search"]).1 =
      ["ai_search", "code_interpreter", "ai_search"].map (toolDefFor testSettings) := by
  have h := C2_order_preserved testSettings ["ai_search", "code_interpreter", "ai_search"]
    (by decide)
  exact ⟨by decide, h.1, h.2⟩

/-- C3: names absent from the registry are skipped without failure and contribute
nothing to either output: `resolve_tools` on any input equals `resolve_tools` on the
input with the unknown names removed. -/
theorem C3_unknown_names_skipped (s : Settings) (names : List String) :
    resolve_tools s names =
      resolve_tools s (names.filter fun n => (lookupA n TOOL_REGISTRY).isSome) :=
  resolveLoop_filter s names [] []

/-- C6: on the empty JSON object `{}`, the `src/function_app.py` handler variant
`create_agent` raises nothing and issues a create-agent call with the default name
`"default-agent"`, default model `"gpt-4.1"`, the prompt table's fallback (`"default"`)
prompt, an empty tools list, and empty tool resources. -/
theorem C6_empty_message_defaults (s : Settings) :
    create_agent s (.ok []) =
      .created { model := .str DEFAULT_AGENT_MODEL, name := .str DEFAULT_AGENT_NAME,
                 instructions := .str (get_prompt DEFAULT_AGENT_NAME),
                 tools := [], tool_resources := [] } ∧
    get_prompt DEFAULT_AGENT_NAME =
      "You are a helpful AI assistant powered by Azure AI Foundry." :=
  ⟨rfl, rfl⟩

/-- C8: on a decode failure, the root `function_app.py` variant logs and re-raises the
failure while the `src/function_app.py` variant logs and returns (message dropped);
neither issues a create-agent call. -/
theorem C8_decode_failure_policies (s : Settings) (e : String) :
    agent_creation_processor s (.error e) = .raised e ∧
    create_agent s (.error e) = .dropped ∧
    createdCall (agent_creation_processor s (.error e)) = none ∧
    createdCall (create_agent s (.error e)) = none :=
  ⟨rfl, rfl, rfl, rfl⟩

/-- C4: the first `get_settings()` call constructs and caches the snapshot and every
later call returns that identical cached instance with no further effect; a fresh
`Settings` resolution after `clear_cache()` invokes the store exactly once per
distinct secret name (the four names, each once, in field order); and a repeated
`get_secret` lookup of an already-fetched name is served from the cache (no store
contact: the second call's outcome is independent of the store). -/
theorem C4_settings_and_secret_caching :
    (∀ env store ps s ps', get_settings env store ps = .ok (s, ps') →
        ps'.settings_cache = some s ∧ get_settings env store ps' = .ok (s, ps'))
  ∧ (∀ env store st v1 v2 v3 v4,
        store KV_FOUNDRY_PROJECT_ENDPOINT = .ok v1 →
        store KV_AI_SEARCH_CONNECTION_ID = .ok v2 →
        store KV_AI_SEARCH_INDEX_NAME = .ok v3 →
        store KV_MCP_CONNECTION_ID = .ok v4 →
        ∃ s st', mkSettings env store (clear_cache st) = .ok (s, st') ∧
          st'.fetches = st.fetches ++ SETTINGS_SECRET_NAMES)
  ∧ SETTINGS_SECRET_NAMES.Nodup
  ∧ (∀ store store2 name st v st', get_secret store name true st = .ok (v, st') →
        get_secret store2 name true st' = .ok (v, st')) := by
  refine ⟨?_, ?_, by decide, ?_⟩
  · intro env store ps s ps' h
    match hc : ps.settings_cache with
    | some t =>
      simp [get_settings, hc] at h
      obtain ⟨rfl, rfl⟩ := h
      exact ⟨hc, by simp [get_settings, hc]⟩
    | none =>
      simp [get_settings, hc] at h
      match hm : mkSettings env store ps.akv with
      | .error e => rw [hm] at h; simp at h
      | .ok (t, akv') =>
        rw [hm] at h
        simp at h
        obtain ⟨rfl, rfl⟩ := h
        exact ⟨rfl, by simp [get_settings]⟩
  · intro env store st v1 v2 v3 v4 h1 h2 h3 h4
    refine ⟨{ foundry_project_endpoint := v1.getD "",
              ai_search_connection_id := v2.getD "",
              ai_search_index_name := v3.getD "",
              mcp_connection_id := v4.getD "",
              azure_client_id := (env "AZURE_CLIENT_ID").getD "",
              key_vault_uri := (env "KEY_VAULT_URI").getD "",
              storage_queue_name := AGENT_QUEUE_NAME },
           { secret_cache := [(KV_FOUNDRY_PROJECT_ENDPOINT, v1.getD ""),
                              (KV_AI_SEARCH_CONNECTION_ID, v2.getD ""),
                              (KV_AI_SEARCH_INDEX_NAME, v3.getD ""),
                              (KV_MCP_CONNECTION_ID, v4.getD "")],
             fetches := st.fetches ++ SETTINGS_SECRET_NAMES }, ?_, rfl⟩
    have h1' : store "foundry-project-endpoint" = Except.ok v1 := h1
    have h2' : store "ai-search-connection-id" = Except.ok v2 := h2
    have h3' : store "ai-search-index-name" = Except.ok v3 := h3
    have h4' : store "mcp-connection-id" = Except.ok v4 := h4
    simp [mkSettings, get_secret, clear_cache, lookupA, setA, SETTINGS_SECRET_NAMES,
      KV_FOUNDRY_PROJECT_ENDPOINT, KV_AI_SEARCH_CONNECTION_ID,
      KV_AI_SEARCH_INDEX_NAME, KV_MCP_CONNECTION_ID, h1', h2', h3', h4']
  · intro store store2 name st v st' h
    by_cases hc : (lookupA name st.secret_cache).isSome
    · simp [get_secret, hc] at h
      obtain ⟨rfl, rfl⟩ := h
      simp [get_secret, hc]
    · simp [get_secret, hc] at h
      match hs : store name with
      | .error e => rw [hs] at h; simp at h
      | .ok w =>
        rw [hs] at h
        simp at h
        obtain ⟨rfl, rfl⟩ := h
        simp [get_secret, lookupA_setA_self]

/-! Concrete environments, stores, and states for closed witnesses. -/

def wEnv : String → Option String := fun _ => none

/-- A store in which every secret exists and its value is its own name. -/
def wStore : String → Except String (Option String) := fun n => .ok (some n)

/-- An unreachable / failing store. -/
def wStoreDead : String → Except String (Option String) := fun _ => .error "connection refused"

def wAkv0 : AkvState := { secret_cache := [], fetches := [] }

def wAkvA : AkvState := { secret_cache := [("a", "a")], fetches := ["a"] }

def wAkvStale : AkvState := { secret_cache := [("a", "stale")], fetches := [] }

def wPs0 : ProcState := { akv := wAkv0, settings_cache := none }

def wS : Settings :=
  { foundry_project_endpoint := "foundry-project-endpoint",
    ai_search_connection_id := "ai-search-connection-id",
    ai_search_index_name := "ai-search-index-name",
    mcp_connection_id := "mcp-connection-id",
    azure_client_id := "",
    key_vault_uri := "",
    storage_queue_name := "agent-jobs" }

def wAkv1 : AkvState :=
  { secret_cache := [("foundry-project-endpoint", "foundry-project-endpoint"),
                     ("ai-search-connection-id", "ai-search-connection-id"),
                     ("ai-search-index-name", "ai-search-index-name"),
                     ("mcp-connection-id", "mcp-connection-id")],
    fetches := ["foundry-project-endpoint", "ai-search-connection-id",
                "ai-search-index-name", "mcp-connection-id"] }

def wPs1 : ProcState := { akv := wAkv1, settings_cache := some wS }

/-- Witness for C4: a concrete first/second `get_settings` call pair, a concrete
fresh resolution after `clear_cache`, and a concrete cache-served repeat lookup
(whose second call uses a dead store, so the value can only come from the cache). -/
theorem C4_settings_and_secret_caching_witness :
    get_settings wEnv wStore wPs0 = Except.ok (wS, wPs1) ∧
    (wPs1.settings_cache = some wS ∧ get_settings wEnv wStore wPs1 = Except.ok (wS, wPs1)) ∧
    (∃ s st', mkSettings wEnv wStore (clear_cache wAkv0) = Except.ok (s, st') ∧
        st'.fetches = wAkv0.fetches ++ SETTINGS_SECRET_NAMES) ∧
    get_secret wStore "a" true wAkv0 = Except.ok ("a", wAkvA) ∧
    get_secret wStoreDead "a" true wAkvA = Except.ok ("a", wAkvA) :=
  ⟨rfl,
   C4_settings_and_secret_caching.1 wEnv wStore wPs0 wS wPs1 rfl,
   C4_settings_and_secret_caching.2.1 wEnv wStore wAkv0
     (some "foundry-project-endpoint") (some "ai-search-connection-id")
     (some "ai-search-index-name") (some "mcp-connection-id") rfl rfl rfl rfl,
   rfl,
   C4_settings_and_secret_caching.2.2.2 wStore wStoreDead "a" wAkv0 "a" wAkvA rfl⟩

/-- C5: a failing store fetch (absent secret or unreachable store) propagates out of
`get_secret` unchanged — no catch, retry, translation, or fallback — both for an
uncached name with `use_cache=True` and for `use_cache=False`; and `Settings`
construction propagates such a failure unchanged to its caller whichever of the four
secret fetches fails: if the fetches preceding any one field succeed and that field's
fetch fails, the construction's result is exactly that error. -/
theorem C5_secret_failure_propagates :
    (∀ store name st e, lookupA name st.secret_cache = none →
        store name = .error e → get_secret store name true st = .error e)
  ∧ (∀ store name st e, store name = .error e → get_secret store name false st = .error e)
  ∧ (∀ env store st e,
        get_secret store KV_FOUNDRY_PROJECT_ENDPOINT true st = .error e →
        mkSettings env store st = .error e)
  ∧ (∀ env store st e v1 st1,
        get_secret store KV_FOUNDRY_PROJECT_ENDPOINT true st = .ok (v1, st1) →
        get_secret store KV_AI_SEARCH_CONNECTION_ID true st1 = .error e →
        mkSettings env store st = .error e)
  ∧ (∀ env store st e v1 st1 v2 st2,
        get_secret store KV_FOUNDRY_PROJECT_ENDPOINT true st = .ok (v1, st1) →
        get_secret store KV_AI_SEARCH_CONNECTION_ID true st1 = .ok (v2, st2) →
        get_secret store KV_AI_SEARCH_INDEX_NAME true st2 = .error e →
        mkSettings env store st = .error e)
  ∧ (∀ env store st e v1 st1 v2 st2 v3 st3,
        get_secret store KV_FOUNDRY_PROJECT_ENDPOINT true st = .ok (v1, st1) →
        get_secret store KV_AI_SEARCH_CONNECTION_ID true st1 = .ok (v2, st2) →
        get_secret store KV_AI_SEARCH_INDEX_NAME true st2 = .ok (v3, st3) →
        get_secret store KV_MCP_CONNECTION_ID true st3 = .error e →
        mkSettings env store st = .error e) := by
  refine ⟨?_, ?_, ?_, ?_, ?_, ?_⟩
  · intro store name st e hc hs
    simp [get_secret, hc, hs]
  · intro store name st e hs
    simp [get_secret, hs]
  · intro env store st e h1
    simp [mkSettings, h1]
  · intro env store st e v1 st1 h1 h2
    simp [mkSettings, h1, h2]
  · intro env store st e v1 st1 v2 st2 h1 h2 h3
    simp [mkSettings, h1, h2, h3]
  · intro env store st e v1 st1 v2 st2 v3 st3 h1 h2 h3 h4
    simp [mkSettings, h1, h2, h3, h4]

/-- A store where every secret exists except `foundry-project-endpoint`. -/
def wStoreNoFpe : String → Except String (Option String) :=
  fun n => if n = "foundry-project-endpoint" then .error "secret not found" else .ok (some n)

/-- A store where only `foundry-project-endpoint` exists. -/
def wStoreFpeOnly : String → Except String (Option String) :=
  fun n => if n = "foundry-project-endpoint" then .ok (some n) else .error "secret not found"

/-- A store where every secret exists except `ai-search-index-name`. -/
def wStoreNoIdx : String → Except String (Option String) :=
  fun n => if n = "ai-search-index-name" then .error "secret not found" else .ok (some n)

/-- A store where every secret exists except `mcp-connection-id`. -/
def wStoreNoMcp : String → Except String (Option String) :=
  fun n => if n = "mcp-connection-id" then .error "secret not found" else .ok (some n)

/-- Cache/fetch state after resolving the first settings field from `wAkv0`. -/
def wAkvF1 : AkvState :=
  { secret_cache := [("foundry-project-endpoint", "foundry-project-endpoint")],
    fetches := ["foundry-project-endpoint"] }

/-- State after resolving the first two settings fields from `wAkv0`. -/
def wAkvF2 : AkvState :=
  { secret_cache := [("foundry-project-endpoint", "foundry-project-endpoint"),
                     ("ai-search-connection-id", "ai-search-connection-id")],
    fetches := ["foundry-project-endpoint", "ai-search-connection-id"] }

/-- State after resolving the first three settings fields from `wAkv0`. -/
def wAkvF3 : AkvState :=
  { secret_cache := [("foundry-project-endpoint", "foundry-project-endpoint"),
                     ("ai-search-connection-id", "ai-search-connection-id"),
                     ("ai-search-index-name", "ai-search-index-name")],
    fetches := ["foundry-project-endpoint", "ai-search-connection-id",
                "ai-search-index-name"] }

/-- Witness for C5: the dead store's failure surfaces unchanged from `get_secret`
(with and without the cache), and `Settings` construction propagates the failure
unchanged whichever single secret is absent — the first, second, third, or only
`mcp-connection-id` while the three fetches before it succeed. -/
theorem C5_secret_failure_propagates_witness :
    lookupA "missing" wAkv0.secret_cache = none ∧
    wStoreDead "missing" = Except.error "connection refused" ∧
    get_secret wStoreDead "missing" true wAkv0 = Except.error "connection refused" ∧
    get_secret wStoreDead "missing" false wAkv0 = Except.error "connection refused" ∧
    (get_secret wStoreNoFpe KV_FOUNDRY_PROJECT_ENDPOINT true wAkv0 =
        Except.error "secret not found" ∧
     mkSettings wEnv wStoreNoFpe wAkv0 = Except.error "secret not found") ∧
    (get_secret wStoreFpeOnly KV_FOUNDRY_PROJECT_ENDPOINT true wAkv0 =
        Except.ok ("foundry-project-endpoint", wAkvF1) ∧
     get_secret wStoreFpeOnly KV_AI_SEARCH_CONNECTION_ID true wAkvF1 =
        Except.error "secret not found" ∧
     mkSettings wEnv wStoreFpeOnly wAkv0 = Except.error "secret not found") ∧
    (get_secret wStoreNoIdx KV_AI_SEARCH_CONNECTION_ID true wAkvF1 =
        Except.ok ("ai-search-connection-id", wAkvF2) ∧
     get_secret wStoreNoIdx KV_AI_SEARCH_INDEX_NAME true wAkvF2 =
        Except.error "secret not found" ∧
     mkSettings wEnv wStoreNoIdx wAkv0 = Except.error "secret not found") ∧
    (get_secret wStoreNoMcp KV_AI_SEARCH_INDEX_NAME true wAkvF2 =
        Except.ok ("ai-search-index-name", wAkvF3) ∧
     get_secret wStoreNoMcp KV_MCP_CONNECTION_ID true wAkvF3 =
        Except.error "secret not found" ∧
     mkSettings wEnv wStoreNoMcp wAkv0 = Except.error "secret not found") :=
  ⟨rfl, rfl,
   C5_secret_failure_propagates.1 wStoreDead "missing" wAkv0 "connection refused" rfl rfl,
   C5_secret_failure_propagates.2.1 wStoreDead "missing" wAkv0 "connection refused" rfl,
   ⟨rfl, C5_secret_failure_propagates.2.2.1 wEnv wStoreNoFpe wAkv0 "secret not found" rfl⟩,
   ⟨rfl, rfl,
    C5_secret_failure_propagates.2.2.2.1 wEnv wStoreFpeOnly wAkv0 "secret not found"
      "foundry-project-endpoint" wAkvF1 rfl rfl⟩,
   ⟨rfl, rfl,
    C5_secret_failure_propagates.2.2.2.2.1 wEnv wStoreNoIdx wAkv0 "secret not found"
      "foundry-project-endpoint" wAkvF1 "ai-search-connection-id" wAkvF2 rfl rfl rfl⟩,
   ⟨rfl, rfl,
    C5_secret_failure_propagates.2.2.2.2.2 wEnv wStoreNoMcp wAkv0 "secret not found"
      "foundry-project-endpoint" wAkvF1 "ai-search-connection-id" wAkvF2
      "ai-search-index-name" wAkvF3 rfl rfl rfl rfl⟩⟩

/-- C9: `get_secret(name, use_cache=False)` always goes to the store and, on success,
overwrites the cache entry for the name; a subsequent default (`use_cache=True`)
lookup of the same name returns that value from the cache without contacting the
store (the second call here uses an arbitrary other store). -/
theorem C9_uncached_fetch_overwrites_cache (store store2 : String → Except String (Option String))
    (name : String) (st : AkvState) (v : String) (st' : AkvState)
    (h : get_secret store name false st = .ok (v, st')) :
    lookupA name st'.secret_cache = some v ∧
    st'.fetches = st.fetches ++ [name] ∧
    get_secret store2 name true st' = .ok (v, st') := by
  simp [get_secret] at h
  match hs : store name with
  | .error e => rw [hs] at h; simp at h
  | .ok w =>
    rw [hs] at h
    simp at h
    obtain ⟨rfl, rfl⟩ := h
    refine ⟨lookupA_setA_self name (w.getD "") st.secret_cache, rfl, ?_⟩
    simp [get_secret, lookupA_setA_self]

/-- Witness for C9: an uncached fetch overwrites a stale cached value, and the
follow-up cached lookup returns the fresh value even against a dead store. -/
theorem C9_uncached_fetch_overwrites_cache_witness :
    get_secret wStore "a" false wAkvStale = Except.ok ("a", wAkvA) ∧
    (lookupA "a" wAkvA.secret_cache = some "a" ∧
     wAkvA.fetches = wAkvStale.fetches ++ ["a"] ∧
     get_secret wStoreDead "a" true wAkvA = Except.ok ("a", wAkvA)) :=
  ⟨rfl, C9_uncached_fetch_overwrites_cache wStore wStoreDead "a" wAkvStale "a" wAkvA rfl⟩

/-- C7 counterexample: on the message `{"agentName": "doc-bot"}` (no `agent_name`),
the `src/function_app.py` variant `create_agent` uses `"default-agent"` as the agent
name, not the legacy `agentName` value — so the claim does not hold of that handler. -/
theorem C7_counterexample :
    (createdCall (create_agent testSettings
        (.ok [("agentName", .str "doc-bot")]))).map CreateAgentCall.name =
      some (.str "default-agent") ∧
    some (Json.str "default-agent") ≠ some (Json.str "doc-bot") := by
  refine ⟨rfl, ?_⟩
  intro h
  simp at h

/-- C7 (amended): for a message lacking `agent_name` but carrying the legacy
`agentName`, only the root `function_app.py` handler `agent_creation_processor` uses
the `agentName` value as the agent name (and hence as the prompt-table key when
`instructions` is absent); the `src/function_app.py` variant `create_agent` ignores
`agentName` and falls back to `"default-agent"`. -/
theorem C7_legacy_agent_name (s : Settings) (config : List (String × Json)) (v : Json)
    (h1 : jlookup config "agent_name" = none) (h2 : jlookup config "agentName" = some v) :
    (createdCall (agent_creation_processor s (.ok config))).map CreateAgentCall.name = some v ∧
    (createdCall (create_agent s (.ok config))).map CreateAgentCall.name =
      some (.str DEFAULT_AGENT_NAME) ∧
    (jlookup config "instructions" = none →
      (createdCall (agent_creation_processor s (.ok config))).map CreateAgentCall.instructions =
        some (.str (get_prompt_json v))) := by
  refine ⟨?_, ?_, ?_⟩
  · simp [agent_creation_processor, createdCall, h1, h2]
  · simp [create_agent, createdCall, h1]
  · intro h3
    simp [agent_creation_processor, createdCall, selectInstructions, h1, h2, h3]

/-- Witness for C7 (amended) at the concrete message `{"agentName": "doc-bot"}`. -/
theorem C7_legacy_agent_name_witness :
    jlookup [("agentName", Json.str "doc-bot")] "agent_name" = none ∧
    jlookup [("agentName", Json.str "doc-bot")] "agentName" = some (.str "doc-bot") ∧
    ((createdCall (agent_creation_processor testSettings
        (.ok [("agentName", .str "doc-bot")]))).map CreateAgentCall.name =
      some (.str "doc-bot") ∧
     (createdCall (create_agent testSettings
        (.ok [("agentName", .str "doc-bot")]))).map CreateAgentCall.name =
      some (.str DEFAULT_AGENT_NAME) ∧
     (jlookup [("agentName", Json.str "doc-bot")] "instructions" = none →
       (createdCall (agent_creation_processor testSettings
          (.ok [("agentName", .str "doc-bot")]))).map CreateAgentCall.instructions =
         some (.str (get_prompt_json (.str "doc-bot"))))) :=
  ⟨rfl, rfl,
   C7_legacy_agent_name testSettings [("agentName", .str "doc-bot")] (.str "doc-bot") rfl rfl⟩

/-- C10: in both handler variants a present-but-falsy `instructions` value (e.g. the
empty string) is treated exactly like an absent field: the handler outcome equals the
outcome on the message with `instructions` removed, and the instructions actually
selected are the prompt-table lookup keyed by the agent name. -/
theorem C10_falsy_instructions (s : Settings) (config : List (String × Json)) (v : Json)
    (h1 : jlookup config "instructions" = some v) (h2 : jtruthy v = false) :
    create_agent s (.ok config) = create_agent s (.ok (eraseA "instructions" config)) ∧
    agent_creation_processor s (.ok config) =
      agent_creation_processor s (.ok (eraseA "instructions" config)) ∧
    (∀ agent_name : Json,
      selectInstructions config agent_name = .str (get_prompt_json agent_name)) := by
  have ha : jlookup (eraseA "instructions" config) "agent_name" = jlookup config "agent_name" :=
    lookupA_eraseA_ne (by decide) config
  have hb : jlookup (eraseA "instructions" config) "agentName" = jlookup config "agentName" :=
    lookupA_eraseA_ne (by decide) config
  have hm : jlookup (eraseA "instructions" config) "model" = jlookup config "model" :=
    lookupA_eraseA_ne (by decide) config
  have ht : jlookup (eraseA "instructions" config) "tools" = jlookup config "tools" :=
    lookupA_eraseA_ne (by decide) config
  have hi : jlookup (eraseA "instructions" config) "instructions" = none :=
    lookupA_eraseA_self "instructions" config
  refine ⟨?_, ?_, ?_⟩
  · simp [create_agent, selectInstructions, ha, hm, ht, hi, h1, h2]
  · simp [agent_creation_processor, selectInstructions, ha, hb, hm, ht, hi, h1, h2]
  · intro agent_name
    simp [selectInstructions, h1, h2]

/-- Witness for C10 at the concrete message
`{"agent_name": "doc-bot", "instructions": ""}`. -/
theorem C10_falsy_instructions_witness :
    jlookup [("agent_name", Json.str "doc-bot"), ("instructions", Json.str "")]
      "instructions" = some (.str "") ∧
    jtruthy (.str "") = false ∧
    (create_agent testSettings
        (.ok [("agent_name", .str "doc-bot"), ("instructions", .str "")]) =
      create_agent testSettings
        (.ok (eraseA "instructions" [("agent_name", .str "doc-bot"), ("instructions", .str "")])) ∧
     agent_creation_processor testSettings
        (.ok [("agent_name", .str "doc-bot"), ("instructions", .str "")]) =
      agent_creation_processor testSettings
        (.ok (eraseA "instructions" [("agent_name", .str "doc-bot"), ("instructions", .str "")])) ∧
     (∀ agent_name : Json,
       selectInstructions [("agent_name", Json.str "doc-bot"), ("instructions", Json.str "")]
         agent_name = .str (get_prompt_json agent_name))) :=
  ⟨rfl, rfl,
   C10_falsy_instructions testSettings
     [("agent_name", .str "doc-bot"), ("instructions", .str "")] (.str "") rfl rfl⟩

end FoundryAgents
